import Mathlib

/-!
Verification of the unicode-brackets library (src/lib.rs).

The library classifies Unicode characters as opening / closing brackets per
the bidirectional bracket pairing data (BidiBrackets.txt, Unicode 9.0.0) and
mirrors them.  Characters are modelled by their code points as naturals; the
four trait methods on char are embedded as the functions below, each match
arm transcribed from the corresponding arm of the Rust match.
-/

/-- The version of Unicode that this version of unicode-brackets is based on
(pub const UNICODE_VERSION in src/lib.rs). -/
def UNICODE_VERSION : Nat × Nat × Nat := (9, 0, 0)

/-- A Unicode scalar value: a code point below 0x110000 that is not a
surrogate.  This is the invariant of Rust's char type, the domain and
codomain of every operation of the library. -/
def isScalarValue (c : Nat) : Bool :=
  decide (c < 0x110000) && !(decide (0xD800 ≤ c) && decide (c ≤ 0xDFFF))

def is_open_bracket (c : Nat) : Bool :=
  match c with
  | 0x0028 => true -- LEFT PARENTHESIS
  | 0x005B => true -- LEFT SQUARE BRACKET
  | 0x007B => true -- LEFT CURLY BRACKET
  | 0x0F3A => true -- TIBETAN MARK GUG RTAGS GYON
  | 0x0F3C => true -- TIBETAN MARK ANG KHANG GYON
  | 0x169B => true -- OGHAM FEATHER MARK
  | 0x2045 => true -- LEFT SQUARE BRACKET WITH QUILL
  | 0x207D => true -- SUPERSCRIPT LEFT PARENTHESIS
  | 0x208D => true -- SUBSCRIPT LEFT PARENTHESIS
  | 0x2308 => true -- LEFT CEILING
  | 0x230A => true -- LEFT FLOOR
  | 0x2329 => true -- LEFT-POINTING ANGLE BRACKET
  | 0x2768 => true -- MEDIUM LEFT PARENTHESIS ORNAMENT
  | 0x276A => true -- MEDIUM FLATTENED LEFT PARENTHESIS ORNAMENT
  | 0x276C => true -- MEDIUM LEFT-POINTING ANGLE BRACKET ORNAMENT
  | 0x276E => true -- HEAVY LEFT-POINTING ANGLE QUOTATION MARK ORNAMENT
  | 0x2770 => true -- HEAVY LEFT-POINTING ANGLE BRACKET ORNAMENT
  | 0x2772 => true -- LIGHT LEFT TORTOISE SHELL BRACKET ORNAMENT
  | 0x2774 => true -- MEDIUM LEFT CURLY BRACKET ORNAMENT
  | 0x27C5 => true -- LEFT S-SHAPED BAG DELIMITER
  | 0x27E6 => true -- MATHEMATICAL LEFT WHITE SQUARE BRACKET
  | 0x27E8 => true -- MATHEMATICAL LEFT ANGLE BRACKET
  | 0x27EA => true -- MATHEMATICAL LEFT DOUBLE ANGLE BRACKET
  | 0x27EC => true -- MATHEMATICAL LEFT WHITE TORTOISE SHELL BRACKET
  | 0x27EE => true -- MATHEMATICAL LEFT FLATTENED PARENTHESIS
  | 0x2983 => true -- LEFT WHITE CURLY BRACKET
  | 0x2985 => true -- LEFT WHITE PARENTHESIS
  | 0x2987 => true -- Z NOTATION LEFT IMAGE BRACKET
  | 0x2989 => true -- Z NOTATION LEFT BINDING BRACKET
  | 0x298B => true -- LEFT SQUARE BRACKET WITH UNDERBAR
  | 0x298D => true -- LEFT SQUARE BRACKET WITH TICK IN TOP CORNER
  | 0x298F => true -- LEFT SQUARE BRACKET WITH TICK IN BOTTOM CORNER
  | 0x2991 => true -- LEFT ANGLE BRACKET WITH DOT
  | 0x2993 => true -- LEFT ARC LESS-THAN BRACKET
  | 0x2995 => true -- DOUBLE LEFT ARC GREATER-THAN BRACKET
  | 0x2997 => true -- LEFT BLACK TORTOISE SHELL BRACKET
  | 0x29D8 => true -- LEFT WIGGLY FENCE
  | 0x29DA => true -- LEFT DOUBLE WIGGLY FENCE
  | 0x29FC => true -- LEFT-POINTING CURVED ANGLE BRACKET
  | 0x2E22 => true -- TOP LEFT HALF BRACKET
  | 0x2E24 => true -- BOTTOM LEFT HALF BRACKET
  | 0x2E26 => true -- LEFT SIDEWAYS U BRACKET
  | 0x2E28 => true -- LEFT DOUBLE PARENTHESIS
  | 0x3008 => true -- LEFT ANGLE BRACKET
  | 0x300A => true -- LEFT DOUBLE ANGLE BRACKET
  | 0x300C => true -- LEFT CORNER BRACKET
  | 0x300E => true -- LEFT WHITE CORNER BRACKET
  | 0x3010 => true -- LEFT BLACK LENTICULAR BRACKET
  | 0x3014 => true -- LEFT TORTOISE SHELL BRACKET
  | 0x3016 => true -- LEFT WHITE LENTICULAR BRACKET
  | 0x3018 => true -- LEFT WHITE TORTOISE SHELL BRACKET
  | 0x301A => true -- LEFT WHITE SQUARE BRACKET
  | 0xFE59 => true -- SMALL LEFT PARENTHESIS
  | 0xFE5B => true -- SMALL LEFT CURLY BRACKET
  | 0xFE5D => true -- SMALL LEFT TORTOISE SHELL BRACKET
  | 0xFF08 => true -- FULLWIDTH LEFT PARENTHESIS
  | 0xFF3B => true -- FULLWIDTH LEFT SQUARE BRACKET
  | 0xFF5B => true -- FULLWIDTH LEFT CURLY BRACKET
  | 0xFF5F => true -- FULLWIDTH LEFT WHITE PARENTHESIS
  | 0xFF62 => true -- HALFWIDTH LEFT CORNER BRACKET
  | _ => false

def is_close_bracket (c : Nat) : Bool :=
  match c with
  | 0x0029 => true -- RIGHT PARENTHESIS
  | 0x005D => true -- RIGHT SQUARE BRACKET
  | 0x007D => true -- RIGHT CURLY BRACKET
  | 0x0F3B => true -- TIBETAN MARK GUG RTAGS GYAS
  | 0x0F3D => true -- TIBETAN MARK ANG KHANG GYAS
  | 0x169C => true -- OGHAM REVERSED FEATHER MARK
  | 0x2046 => true -- RIGHT SQUARE BRACKET WITH QUILL
  | 0x207E => true -- SUPERSCRIPT RIGHT PARENTHESIS
  | 0x208E => true -- SUBSCRIPT RIGHT PARENTHESIS
  | 0x2309 => true -- RIGHT CEILING
  | 0x230B => true -- RIGHT FLOOR
  | 0x232A => true -- RIGHT-POINTING ANGLE BRACKET
  | 0x2769 => true -- MEDIUM RIGHT PARENTHESIS ORNAMENT
  | 0x276B => true -- MEDIUM FLATTENED RIGHT PARENTHESIS ORNAMENT
  | 0x276D => true -- MEDIUM RIGHT-POINTING ANGLE BRACKET ORNAMENT
  | 0x276F => true -- HEAVY RIGHT-POINTING ANGLE QUOTATION MARK ORNAMENT
  | 0x2771 => true -- HEAVY RIGHT-POINTING ANGLE BRACKET ORNAMENT
  | 0x2773 => true -- LIGHT RIGHT TORTOISE SHELL BRACKET ORNAMENT
  | 0x2775 => true -- MEDIUM RIGHT CURLY BRACKET ORNAMENT
  | 0x27C6 => true -- RIGHT S-SHAPED BAG DELIMITER
  | 0x27E7 => true -- MATHEMATICAL RIGHT WHITE SQUARE BRACKET
  | 0x27E9 => true -- MATHEMATICAL RIGHT ANGLE BRACKET
  | 0x27EB => true -- MATHEMATICAL RIGHT DOUBLE ANGLE BRACKET
  | 0x27ED => true -- MATHEMATICAL RIGHT WHITE TORTOISE SHELL BRACKET
  | 0x27EF => true -- MATHEMATICAL RIGHT FLATTENED PARENTHESIS
  | 0x2984 => true -- RIGHT WHITE CURLY BRACKET
  | 0x2986 => true -- RIGHT WHITE PARENTHESIS
  | 0x2988 => true -- Z NOTATION RIGHT IMAGE BRACKET
  | 0x298A => true -- Z NOTATION RIGHT BINDING BRACKET
  | 0x298C => true -- RIGHT SQUARE BRACKET WITH UNDERBAR
  | 0x298E => true -- RIGHT SQUARE BRACKET WITH TICK IN BOTTOM CORNER
  | 0x2990 => true -- RIGHT SQUARE BRACKET WITH TICK IN TOP CORNER
  | 0x2992 => true -- RIGHT ANGLE BRACKET WITH DOT
  | 0x2994 => true -- RIGHT ARC GREATER-THAN BRACKET
  | 0x2996 => true -- DOUBLE RIGHT ARC LESS-THAN BRACKET
  | 0x2998 => true -- RIGHT BLACK TORTOISE SHELL BRACKET
  | 0x29D9 => true -- RIGHT WIGGLY FENCE
  | 0x29DB => true -- RIGHT DOUBLE WIGGLY FENCE
  | 0x29FD => true -- RIGHT-POINTING CURVED ANGLE BRACKET
  | 0x2E23 => true -- TOP RIGHT HALF BRACKET
  | 0x2E25 => true -- BOTTOM RIGHT HALF BRACKET
  | 0x2E27 => true -- RIGHT SIDEWAYS U BRACKET
  | 0x2E29 => true -- RIGHT DOUBLE PARENTHESIS
  | 0x3009 => true -- RIGHT ANGLE BRACKET
  | 0x300B => true -- RIGHT DOUBLE ANGLE BRACKET
  | 0x300D => true -- RIGHT CORNER BRACKET
  | 0x300F => true -- RIGHT WHITE CORNER BRACKET
  | 0x3011 => true -- RIGHT BLACK LENTICULAR BRACKET
  | 0x3015 => true -- RIGHT TORTOISE SHELL BRACKET
  | 0x3017 => true -- RIGHT WHITE LENTICULAR BRACKET
  | 0x3019 => true -- RIGHT WHITE TORTOISE SHELL BRACKET
  | 0x301B => true -- RIGHT WHITE SQUARE BRACKET
  | 0xFE5A => true -- SMALL RIGHT PARENTHESIS
  | 0xFE5C => true -- SMALL RIGHT CURLY BRACKET
  | 0xFE5E => true -- SMALL RIGHT TORTOISE SHELL BRACKET
  | 0xFF09 => true -- FULLWIDTH RIGHT PARENTHESIS
  | 0xFF3D => true -- FULLWIDTH RIGHT SQUARE BRACKET
  | 0xFF5D => true -- FULLWIDTH RIGHT CURLY BRACKET
  | 0xFF60 => true -- FULLWIDTH RIGHT WHITE PARENTHESIS
  | 0xFF63 => true -- HALFWIDTH RIGHT CORNER BRACKET
  | _ => false

def to_close_bracket (c : Nat) : Nat :=
  match c with
  | 0x0028 => 0x0029 -- LEFT PARENTHESIS
  | 0x005B => 0x005D -- LEFT SQUARE BRACKET
  | 0x007B => 0x007D -- LEFT CURLY BRACKET
  | 0x0F3A => 0x0F3B -- TIBETAN MARK GUG RTAGS GYON
  | 0x0F3C => 0x0F3D -- TIBETAN MARK ANG KHANG GYON
  | 0x169B => 0x169C -- OGHAM FEATHER MARK
  | 0x2045 => 0x2046 -- LEFT SQUARE BRACKET WITH QUILL
  | 0x207D => 0x207E -- SUPERSCRIPT LEFT PARENTHESIS
  | 0x208D => 0x208E -- SUBSCRIPT LEFT PARENTHESIS
  | 0x2308 => 0x2309 -- LEFT CEILING
  | 0x230A => 0x230B -- LEFT FLOOR
  | 0x2329 => 0x232A -- LEFT-POINTING ANGLE BRACKET
  | 0x2768 => 0x2769 -- MEDIUM LEFT PARENTHESIS ORNAMENT
  | 0x276A => 0x276B -- MEDIUM FLATTENED LEFT PARENTHESIS ORNAMENT
  | 0x276C => 0x276D -- MEDIUM LEFT-POINTING ANGLE BRACKET ORNAMENT
  | 0x276E => 0x276F -- HEAVY LEFT-POINTING ANGLE QUOTATION MARK ORNAMENT
  | 0x2770 => 0x2771 -- HEAVY LEFT-POINTING ANGLE BRACKET ORNAMENT
  | 0x2772 => 0x2773 -- LIGHT LEFT TORTOISE SHELL BRACKET ORNAMENT
  | 0x2774 => 0x2775 -- MEDIUM LEFT CURLY BRACKET ORNAMENT
  | 0x27C5 => 0x27C6 -- LEFT S-SHAPED BAG DELIMITER
  | 0x27E6 => 0x27E7 -- MATHEMATICAL LEFT WHITE SQUARE BRACKET
  | 0x27E8 => 0x27E9 -- MATHEMATICAL LEFT ANGLE BRACKET
  | 0x27EA => 0x27EB -- MATHEMATICAL LEFT DOUBLE ANGLE BRACKET
  | 0x27EC => 0x27ED -- MATHEMATICAL LEFT WHITE TORTOISE SHELL BRACKET
  | 0x27EE => 0x27EF -- MATHEMATICAL LEFT FLATTENED PARENTHESIS
  | 0x2983 => 0x2984 -- LEFT WHITE CURLY BRACKET
  | 0x2985 => 0x2986 -- LEFT WHITE PARENTHESIS
  | 0x2987 => 0x2988 -- Z NOTATION LEFT IMAGE BRACKET
  | 0x2989 => 0x298A -- Z NOTATION LEFT BINDING BRACKET
  | 0x298B => 0x298C -- LEFT SQUARE BRACKET WITH UNDERBAR
  | 0x298D => 0x2990 -- LEFT SQUARE BRACKET WITH TICK IN TOP CORNER
  | 0x298F => 0x298E -- LEFT SQUARE BRACKET WITH TICK IN BOTTOM CORNER
  | 0x2991 => 0x2992 -- LEFT ANGLE BRACKET WITH DOT
  | 0x2993 => 0x2994 -- LEFT ARC LESS-THAN BRACKET
  | 0x2995 => 0x2996 -- DOUBLE LEFT ARC GREATER-THAN BRACKET
  | 0x2997 => 0x2998 -- LEFT BLACK TORTOISE SHELL BRACKET
  | 0x29D8 => 0x29D9 -- LEFT WIGGLY FENCE
  | 0x29DA => 0x29DB -- LEFT DOUBLE WIGGLY FENCE
  | 0x29FC => 0x29FD -- LEFT-POINTING CURVED ANGLE BRACKET
  | 0x2E22 => 0x2E23 -- TOP LEFT HALF BRACKET
  | 0x2E24 => 0x2E25 -- BOTTOM LEFT HALF BRACKET
  | 0x2E26 => 0x2E27 -- LEFT SIDEWAYS U BRACKET
  | 0x2E28 => 0x2E29 -- LEFT DOUBLE PARENTHESIS
  | 0x3008 => 0x3009 -- LEFT ANGLE BRACKET
  | 0x300A => 0x300B -- LEFT DOUBLE ANGLE BRACKET
  | 0x300C => 0x300D -- LEFT CORNER BRACKET
  | 0x300E => 0x300F -- LEFT WHITE CORNER BRACKET
  | 0x3010 => 0x3011 -- LEFT BLACK LENTICULAR BRACKET
  | 0x3014 => 0x3015 -- LEFT TORTOISE SHELL BRACKET
  | 0x3016 => 0x3017 -- LEFT WHITE LENTICULAR BRACKET
  | 0x3018 => 0x3019 -- LEFT WHITE TORTOISE SHELL BRACKET
  | 0x301A => 0x301B -- LEFT WHITE SQUARE BRACKET
  | 0xFE59 => 0xFE5A -- SMALL LEFT PARENTHESIS
  | 0xFE5B => 0xFE5C -- SMALL LEFT CURLY BRACKET
  | 0xFE5D => 0xFE5E -- SMALL LEFT TORTOISE SHELL BRACKET
  | 0xFF08 => 0xFF09 -- FULLWIDTH LEFT PARENTHESIS
  | 0xFF3B => 0xFF3D -- FULLWIDTH LEFT SQUARE BRACKET
  | 0xFF5B => 0xFF5D -- FULLWIDTH LEFT CURLY BRACKET
  | 0xFF5F => 0xFF60 -- FULLWIDTH LEFT WHITE PARENTHESIS
  | 0xFF62 => 0xFF63 -- HALFWIDTH LEFT CORNER BRACKET
  | _ => c

def to_open_bracket (c : Nat) : Nat :=
  match c with
  | 0x0029 => 0x0028 -- RIGHT PARENTHESIS
  | 0x005D => 0x005B -- RIGHT SQUARE BRACKET
  | 0x007D => 0x007B -- RIGHT CURLY BRACKET
  | 0x0F3B => 0x0F3A -- TIBETAN MARK GUG RTAGS GYAS
  | 0x0F3D => 0x0F3C -- TIBETAN MARK ANG KHANG GYAS
  | 0x169C => 0x169B -- OGHAM REVERSED FEATHER MARK
  | 0x2046 => 0x2045 -- RIGHT SQUARE BRACKET WITH QUILL
  | 0x207E => 0x207D -- SUPERSCRIPT RIGHT PARENTHESIS
  | 0x208E => 0x208D -- SUBSCRIPT RIGHT PARENTHESIS
  | 0x2309 => 0x2308 -- RIGHT CEILING
  | 0x230B => 0x230A -- RIGHT FLOOR
  | 0x232A => 0x2329 -- RIGHT-POINTING ANGLE BRACKET
  | 0x2769 => 0x2768 -- MEDIUM RIGHT PARENTHESIS ORNAMENT
  | 0x276B => 0x276A -- MEDIUM FLATTENED RIGHT PARENTHESIS ORNAMENT
  | 0x276D => 0x276C -- MEDIUM RIGHT-POINTING ANGLE BRACKET ORNAMENT
  | 0x276F => 0x276E -- HEAVY RIGHT-POINTING ANGLE QUOTATION MARK ORNAMENT
  | 0x2771 => 0x2770 -- HEAVY RIGHT-POINTING ANGLE BRACKET ORNAMENT
  | 0x2773 => 0x2772 -- LIGHT RIGHT TORTOISE SHELL BRACKET ORNAMENT
  | 0x2775 => 0x2774 -- MEDIUM RIGHT CURLY BRACKET ORNAMENT
  | 0x27C6 => 0x27C5 -- RIGHT S-SHAPED BAG DELIMITER
  | 0x27E7 => 0x27E6 -- MATHEMATICAL RIGHT WHITE SQUARE BRACKET
  | 0x27E9 => 0x27E8 -- MATHEMATICAL RIGHT ANGLE BRACKET
  | 0x27EB => 0x27EA -- MATHEMATICAL RIGHT DOUBLE ANGLE BRACKET
  | 0x27ED => 0x27EC -- MATHEMATICAL RIGHT WHITE TORTOISE SHELL BRACKET
  | 0x27EF => 0x27EE -- MATHEMATICAL RIGHT FLATTENED PARENTHESIS
  | 0x2984 => 0x2983 -- RIGHT WHITE CURLY BRACKET
  | 0x2986 => 0x2985 -- RIGHT WHITE PARENTHESIS
  | 0x2988 => 0x2987 -- Z NOTATION RIGHT IMAGE BRACKET
  | 0x298A => 0x2989 -- Z NOTATION RIGHT BINDING BRACKET
  | 0x298C => 0x298B -- RIGHT SQUARE BRACKET WITH UNDERBAR
  | 0x298E => 0x298F -- RIGHT SQUARE BRACKET WITH TICK IN BOTTOM CORNER
  | 0x2990 => 0x298D -- RIGHT SQUARE BRACKET WITH TICK IN TOP CORNER
  | 0x2992 => 0x2991 -- RIGHT ANGLE BRACKET WITH DOT
  | 0x2994 => 0x2993 -- RIGHT ARC GREATER-THAN BRACKET
  | 0x2996 => 0x2995 -- DOUBLE RIGHT ARC LESS-THAN BRACKET
  | 0x2998 => 0x2997 -- RIGHT BLACK TORTOISE SHELL BRACKET
  | 0x29D9 => 0x29D8 -- RIGHT WIGGLY FENCE
  | 0x29DB => 0x29DA -- RIGHT DOUBLE WIGGLY FENCE
  | 0x29FD => 0x29FC -- RIGHT-POINTING CURVED ANGLE BRACKET
  | 0x2E23 => 0x2E22 -- TOP RIGHT HALF BRACKET
  | 0x2E25 => 0x2E24 -- BOTTOM RIGHT HALF BRACKET
  | 0x2E27 => 0x2E26 -- RIGHT SIDEWAYS U BRACKET
  | 0x2E29 => 0x2E28 -- RIGHT DOUBLE PARENTHESIS
  | 0x3009 => 0x3008 -- RIGHT ANGLE BRACKET
  | 0x300B => 0x300A -- RIGHT DOUBLE ANGLE BRACKET
  | 0x300D => 0x300C -- RIGHT CORNER BRACKET
  | 0x300F => 0x300E -- RIGHT WHITE CORNER BRACKET
  | 0x3011 => 0x3010 -- RIGHT BLACK LENTICULAR BRACKET
  | 0x3015 => 0x3014 -- RIGHT TORTOISE SHELL BRACKET
  | 0x3017 => 0x3016 -- RIGHT WHITE LENTICULAR BRACKET
  | 0x3019 => 0x3018 -- RIGHT WHITE TORTOISE SHELL BRACKET
  | 0x301B => 0x301A -- RIGHT WHITE SQUARE BRACKET
  | 0xFE5A => 0xFE59 -- SMALL RIGHT PARENTHESIS
  | 0xFE5C => 0xFE5B -- SMALL RIGHT CURLY BRACKET
  | 0xFE5E => 0xFE5D -- SMALL RIGHT TORTOISE SHELL BRACKET
  | 0xFF09 => 0xFF08 -- FULLWIDTH RIGHT PARENTHESIS
  | 0xFF3D => 0xFF3B -- FULLWIDTH RIGHT SQUARE BRACKET
  | 0xFF5D => 0xFF5B -- FULLWIDTH RIGHT CURLY BRACKET
  | 0xFF60 => 0xFF5F -- FULLWIDTH RIGHT WHITE PARENTHESIS
  | 0xFF63 => 0xFF62 -- HALFWIDTH RIGHT CORNER BRACKET
  | _ => c

/-! ### Helper lemmas about the tables -/

/-- The hard-coded open classification agrees with the one derived from the
close transform. -/
lemma open_iff_toClose_ne (x : Nat) :
    is_open_bracket x = true ↔ to_close_bracket x ≠ x := by
  unfold is_open_bracket to_close_bracket
  split <;> first | decide | simp

/-- The hard-coded close classification agrees with the one derived from the
open transform. -/
lemma close_iff_toOpen_ne (x : Nat) :
    is_close_bracket x = true ↔ to_open_bracket x ≠ x := by
  unfold is_close_bracket to_open_bracket
  split <;> first | decide | simp

/-- No code point is classified as both an open and a close bracket. -/
lemma open_and_close_false (x : Nat) :
    (is_open_bracket x && is_close_bracket x) = false := by
  unfold is_open_bracket
  split <;> first | decide | simp

/-- Applying the open-to-close transform after the close-to-open transform
returns every open bracket unchanged. -/
lemma toOpen_toClose_of_open (x : Nat) (h : is_open_bracket x = true) :
    to_open_bracket (to_close_bracket x) = x := by
  unfold is_open_bracket at h
  split at h <;> first | decide | exact absurd h (by decide)

/-- Applying the close-to-open transform after the open-to-close transform
returns every close bracket unchanged. -/
lemma toClose_toOpen_of_close (x : Nat) (h : is_close_bracket x = true) :
    to_close_bracket (to_open_bracket x) = x := by
  unfold is_close_bracket at h
  split at h <;> first | decide | exact absurd h (by decide)

/-- The close transform sends every open bracket to a close bracket. -/
lemma isClose_toClose_of_open (x : Nat) (h : is_open_bracket x = true) :
    is_close_bracket (to_close_bracket x) = true := by
  unfold is_open_bracket at h
  split at h <;> first | decide | exact absurd h (by decide)

/-- The open transform sends every close bracket to an open bracket. -/
lemma isOpen_toOpen_of_close (x : Nat) (h : is_close_bracket x = true) :
    is_open_bracket (to_open_bracket x) = true := by
  unfold is_close_bracket at h
  split at h <;> first | decide | exact absurd h (by decide)

/-- Characters that are not open brackets are fixed by the close transform. -/
lemma toClose_id_of_not_open (x : Nat) (h : is_open_bracket x = false) :
    to_close_bracket x = x := by
  by_contra hne
  rw [(open_iff_toClose_ne x).mpr hne] at h
  exact absurd h (by decide)

/-- Characters that are not close brackets are fixed by the open transform. -/
lemma toOpen_id_of_not_close (x : Nat) (h : is_close_bracket x = false) :
    to_open_bracket x = x := by
  by_contra hne
  rw [(close_iff_toOpen_ne x).mpr hne] at h
  exact absurd h (by decide)

/-- Close brackets are fixed by the close transform. -/
lemma toClose_id_of_close (x : Nat) (h : is_close_bracket x = true) :
    to_close_bracket x = x := by
  have hx := open_and_close_false x
  rw [h, Bool.and_true] at hx
  exact toClose_id_of_not_open x hx

/-- Open brackets are fixed by the open transform. -/
lemma toOpen_id_of_open (x : Nat) (h : is_open_bracket x = true) :
    to_open_bracket x = x := by
  have hx := open_and_close_false x
  rw [h, Bool.true_and] at hx
  exact toOpen_id_of_not_close x hx

/-! ### The claims -/

/-- Claim C1: for every Unicode scalar value x the hard-coded classification
agrees with the classification derived from the transforms:
is_open_bracket x holds exactly when to_close_bracket x differs from x, and
is_close_bracket x holds exactly when to_open_bracket x differs from x. -/
theorem consistency_tables_agree (x : Nat) :
    (is_open_bracket x = true ↔ to_close_bracket x ≠ x) ∧
    (is_close_bracket x = true ↔ to_open_bracket x ≠ x) :=
  ⟨open_iff_toClose_ne x, close_iff_toOpen_ne x⟩

/-- Claim C2: the transforms are mutually inverse on the bracket pairs:
every open bracket survives the round trip through to_close_bracket and
to_open_bracket, and every close bracket survives the opposite round trip. -/
theorem round_trip_brackets (x : Nat) :
    (is_open_bracket x = true → to_open_bracket (to_close_bracket x) = x) ∧
    (is_close_bracket x = true → to_close_bracket (to_open_bracket x) = x) :=
  ⟨toOpen_toClose_of_open x, toClose_toOpen_of_close x⟩

/-- Claim C2 witness: the round trips at the asymmetric-looking entries
U+298D (whose close is U+2990) and U+298E (whose open is U+298F). -/
theorem round_trip_brackets_witness :
    to_open_bracket (to_close_bracket 0x298D) = 0x298D ∧
    to_close_bracket (to_open_bracket 0x298E) = 0x298E :=
  ⟨(round_trip_brackets 0x298D).1 (by decide),
   (round_trip_brackets 0x298E).2 (by decide)⟩

/-- Claim C3: every character that is neither an open nor a close bracket is
a fixed point of both transforms. -/
theorem fixed_point_non_bracket (x : Nat)
    (ho : is_open_bracket x = false) (hc : is_close_bracket x = false) :
    to_open_bracket x = x ∧ to_close_bracket x = x :=
  ⟨toOpen_id_of_not_close x hc, toClose_id_of_not_open x ho⟩

/-- Claim C3 witness: the letter a (U+0061) is fixed by both transforms. -/
theorem fixed_point_non_bracket_witness :
    to_open_bracket 0x61 = 0x61 ∧ to_close_bracket 0x61 = 0x61 :=
  fixed_point_non_bracket 0x61 (by decide) (by decide)

/-- Claim C4: no character is simultaneously an open and a close bracket. -/
theorem mutual_exclusivity (x : Nat) :
    (is_open_bracket x && is_close_bracket x) = false :=
  open_and_close_false x

/-- Claim C5: the identity fallback covers wrong-side brackets: a close
bracket is fixed by to_close_bracket and an open bracket by to_open_bracket. -/
theorem identity_on_own_side (x : Nat) :
    (is_close_bracket x = true → to_close_bracket x = x) ∧
    (is_open_bracket x = true → to_open_bracket x = x) :=
  ⟨toClose_id_of_close x, toOpen_id_of_open x⟩

/-- Claim C5 witness: to_close_bracket leaves the right parenthesis in place
and to_open_bracket leaves the left parenthesis in place. -/
theorem identity_on_own_side_witness :
    to_close_bracket 0x29 = 0x29 ∧ to_open_bracket 0x28 = 0x28 :=
  ⟨(identity_on_own_side 0x29).1 (by decide),
   (identity_on_own_side 0x28).2 (by decide)⟩

/-- Claim C6: the mapping is a strict bijection: to_close_bracket is
injective on open brackets and to_open_bracket on close brackets, every open
bracket is sent to a close bracket distinct from itself, and every close
bracket to an open bracket distinct from itself. -/
theorem strict_bijection (x y : Nat) :
    (is_open_bracket x = true → is_open_bracket y = true →
      to_close_bracket x = to_close_bracket y → x = y) ∧
    (is_close_bracket x = true → is_close_bracket y = true →
      to_open_bracket x = to_open_bracket y → x = y) ∧
    (is_open_bracket x = true →
      is_close_bracket (to_close_bracket x) = true ∧ to_close_bracket x ≠ x) ∧
    (is_close_bracket x = true →
      is_open_bracket (to_open_bracket x) = true ∧ to_open_bracket x ≠ x) := by
  refine ⟨fun hx hy he => ?_, fun hx hy he => ?_, fun hx => ?_, fun hx => ?_⟩
  · rw [← toOpen_toClose_of_open x hx, he, toOpen_toClose_of_open y hy]
  · rw [← toClose_toOpen_of_close x hx, he, toClose_toOpen_of_close y hy]
  · exact ⟨isClose_toClose_of_open x hx, (open_iff_toClose_ne x).mp hx⟩
  · exact ⟨isOpen_toOpen_of_close x hx, (close_iff_toOpen_ne x).mp hx⟩

/-- Claim C6 witness: the bijection facts at the parenthesis pair. -/
theorem strict_bijection_witness :
    (0x28 : Nat) = 0x28 ∧ (0x29 : Nat) = 0x29 ∧
    (is_close_bracket (to_close_bracket 0x28) = true ∧
      to_close_bracket 0x28 ≠ 0x28) ∧
    (is_open_bracket (to_open_bracket 0x29) = true ∧
      to_open_bracket 0x29 ≠ 0x29) :=
  ⟨(strict_bijection 0x28 0x28).1 (by decide) (by decide) rfl,
   (strict_bijection 0x29 0x29).2.1 (by decide) (by decide) rfl,
   (strict_bijection 0x28 0).2.2.1 (by decide),
   (strict_bijection 0x29 0).2.2.2 (by decide)⟩

/-- Claim C7: all four operations are total over the full domain of Unicode
scalar values: on every scalar value each classification yields a boolean and
each transform yields a Unicode scalar value, with no error case. -/
theorem totality_scalar_values (x : Nat) (h : isScalarValue x = true) :
    isScalarValue (to_open_bracket x) = true ∧
    isScalarValue (to_close_bracket x) = true ∧
    (is_open_bracket x = true ∨ is_open_bracket x = false) ∧
    (is_close_bracket x = true ∨ is_close_bracket x = false) := by
  refine ⟨?_, ?_, ?_, ?_⟩
  · unfold to_open_bracket
    split <;> first | decide | exact h
  · unfold to_close_bracket
    split <;> first | decide | exact h
  · exact Bool.eq_false_or_eq_true (is_open_bracket x)
  · exact Bool.eq_false_or_eq_true (is_close_bracket x)

/-- Claim C7 witness: totality at the unassigned code point U+0378. -/
theorem totality_scalar_values_witness :
    isScalarValue (to_open_bracket 0x378) = true ∧
    isScalarValue (to_close_bracket 0x378) = true ∧
    (is_open_bracket 0x378 = true ∨ is_open_bracket 0x378 = false) ∧
    (is_close_bracket 0x378 = true ∨ is_close_bracket 0x378 = false) :=
  totality_scalar_values 0x378 (by decide)

/-- Claim C8: the concrete scenarios: the left parenthesis and the left
square bracket are open brackets closing to their counterparts, U+2991 closes
to U+2992, the letter a is no bracket and fixed, and the right parenthesis is
a close bracket opening to the left parenthesis. -/
theorem concrete_scenarios :
    is_open_bracket 0x28 = true ∧ to_close_bracket 0x28 = 0x29 ∧
    is_open_bracket 0x5B = true ∧ to_close_bracket 0x5B = 0x5D ∧
    to_close_bracket 0x2991 = 0x2992 ∧
    is_open_bracket 0x61 = false ∧ to_close_bracket 0x61 = 0x61 ∧
    is_close_bracket 0x29 = true ∧ to_open_bracket 0x29 = 0x28 := by
  decide

/-- Claim C9: the public constant UNICODE_VERSION is the major.minor.patch
triple (9, 0, 0). -/
theorem unicode_version_value : UNICODE_VERSION = (9, 0, 0) := rfl

/-- Claim C10: both transforms are idempotent: applying the same transform
twice changes nothing beyond the first application. -/
theorem idempotent_transforms (x : Nat) :
    to_close_bracket (to_close_bracket x) = to_close_bracket x ∧
    to_open_bracket (to_open_bracket x) = to_open_bracket x := by
  constructor
  · rcases Bool.eq_false_or_eq_true (is_open_bracket x) with h | h
    · exact toClose_id_of_close (to_close_bracket x) (isClose_toClose_of_open x h)
    · have h2 := toClose_id_of_not_open x h
      rw [h2, h2]
  · rcases Bool.eq_false_or_eq_true (is_close_bracket x) with h | h
    · exact toOpen_id_of_open (to_open_bracket x) (isOpen_toOpen_of_close x h)
    · have h2 := toOpen_id_of_not_close x h
      rw [h2, h2]
